import Mathlib

/-!
Verification development for the ServiceAi multi-channel support-chat backend.
The definitions below are a shallow embedding of the Python sources under
backend/app/modules (dialogs/service.py, dialogs/models.py, dialogs/schemas.py,
ai/service.py, ai/rag.py, channels/avito_handler.py, channels/avito_sender.py,
channels/sender_registry.py).  Machine timestamps are modelled as natural
numbers counting whole seconds; each atomic phase of an operation that stamps
several fields with datetime.utcnow() in immediate succession is modelled as
happening at one instant, passed in as an explicit clock argument.  External
HTTP capabilities (LLM, embeddings, channel APIs) are modelled as oracle
fields of environment records; an Except error value models the exception the
Python caller would observe.
-/

namespace ServiceAi

/-! ## A small JSON model with Python dict/truthiness semantics

Raw webhook payloads are Python dicts holding JSON data.  `Json.truthy`
mirrors Python truthiness, `pyGet` mirrors `x.get(key)` (which raises
AttributeError when `x` is not a dict and yields None for a missing key),
and `pyStr` mirrors `str(...)` on the scalar values the normalizer converts.
-/

inductive Json where
  | null : Json
  | bool (b : Bool) : Json
  | num (n : Int) : Json
  | str (s : String) : Json
  | arr (elems : List Json) : Json
  | obj (fields : List (String × Json)) : Json
deriving Repr

inductive ChannelType where
  | telegram
  | whatsapp_green
  | whatsapp_360
  | whatsapp_custom
  | avito
  | max
  | webchat
deriving Repr, DecidableEq

/-- Schema NormalizedIncomingMessage (channels/schemas.py).  The text field
holds the already-stringified text; pydantic would reject a non-string value,
which no claim exercises. -/
structure NormalizedIncomingMessage where
  bot_id : Nat
  channel_id : Nat
  channel_type : ChannelType
  external_chat_id : String
  external_user_id : String
  external_message_id : Option String
  text : Option String
  payload : Option Json
deriving Repr

/-! ## Avito webhook normalization (channels/avito_handler.py)

The helper `_parse_timestamp` calls `datetime.fromisoformat` for string
inputs; that parser is abstracted as the oracle argument `parseIso`, and the
numeric branch (`datetime.fromtimestamp`) keeps the epoch seconds.  Both
branches swallow parse failures, so the helper itself never raises. -/

inductive DialogStatus where
  | auto
  | wait_operator
  | wait_user
deriving Repr, DecidableEq

inductive MessageSender where
  | user
  | bot
  | operator
deriving Repr, DecidableEq

/-- Table dialogs (dialogs/models.py lines 50-91).  The key columns
(bot_id, channel_type, external_chat_id) carry only a NON-unique index
ix_dialog_bot_channel_chat; the store itself enforces no uniqueness on the
open-dialog key. -/
structure Dialog where
  id : Nat
  bot_id : Nat
  channel_type : ChannelType
  external_chat_id : String
  external_user_id : String
  status : DialogStatus
  closed : Bool
  last_message_at : Nat
  last_user_message_at : Option Nat
  unread_messages_count : Nat
  is_locked : Bool
  locked_until : Option Nat
  assigned_admin_id : Option Nat
  waiting_time_seconds : Nat
  created_at : Nat
  updated_at : Nat
deriving Repr, DecidableEq

structure DialogMessage where
  id : Nat
  dialog_id : Nat
  sender : MessageSender
  text : Option String
  payload : Option Json
  created_at : Nat
  updated_at : Nat
deriving Repr

/-- Schema DialogUpdate (dialogs/schemas.py lines 37-44) under pydantic
model_dump(exclude_unset=True): an outer none means the field was not
supplied; for the nullable columns the inner Option is the supplied value.
An explicitly supplied null for the NOT NULL columns (status, closed,
is_locked, counters) would be rejected by the database and is not modelled. -/
structure DialogUpdate where
  status : Option DialogStatus
  closed : Option Bool
  assigned_admin_id : Option (Option Nat)
  is_locked : Option Bool
  locked_until : Option (Option Nat)
  unread_messages_count : Option Nat
  waiting_time_seconds : Option Nat
deriving Repr, DecidableEq

inductive DialogsError where
  | lockConflict (msg : String)
  | valueError (msg : String)
deriving Repr, DecidableEq

/-! ## The dialog store

A Store is the relational state the service manipulates: the dialogs table,
the dialog_messages table and the two id sequences.  commit_dialog models
flushing a mutated Dialog row back by primary key. -/

structure Store where
  dialogs : List Dialog
  messages : List DialogMessage
  next_dialog_id : Nat
  next_message_id : Nat
deriving Repr

def commit_dialog (s : Store) (d : Dialog) : Store :=
  { s with dialogs := s.dialogs.map (fun x => if x.id = d.id then d else x) }

def append_message (s : Store) (m : DialogMessage) : Store :=
  { s with messages := s.messages ++ [m], next_message_id := s.next_message_id + 1 }

/-- Python `external_user_id or external_chat_id` on an optional string. -/
def pyOrStr (a : Option String) (b : String) : String :=
  match a with
  | some s => if s = "" then b else s
  | none => b

def sameOpenKey (bot_id : Nat) (channel_type : ChannelType)
    (external_chat_id : String) (d : Dialog) : Prop :=
  d.bot_id = bot_id ∧ d.channel_type = channel_type ∧
    d.external_chat_id = external_chat_id ∧ d.closed = false

instance (bot_id : Nat) (ct : ChannelType) (chat : String) (d : Dialog) :
    Decidable (sameOpenKey bot_id ct chat d) := by
  unfold sameOpenKey; infer_instance

/-- The SELECT of get_or_create_dialog: open dialogs for the key, ordered by
updated_at descending, first row.  Ties on updated_at are returned in table
order, matching an ORDER BY with no further sort key. -/
def pickLatest : Option Dialog → Dialog → Option Dialog
  | none, d => some d
  | some b, d => if d.updated_at > b.updated_at then some d else some b

def latest_open (s : Store) (bot_id : Nat) (channel_type : ChannelType)
    (external_chat_id : String) : Option Dialog :=
  (s.dialogs.filter (fun d =>
      decide (sameOpenKey bot_id channel_type external_chat_id d))).foldl
    pickLatest none

/-- DialogsService.get_or_create_dialog (service.py lines 65-99).  now stamps
the column defaults (created_at, updated_at, last_message_at) of a freshly
inserted row. -/
def get_or_create_dialog (s : Store) (bot_id : Nat) (channel_type : ChannelType)
    (external_chat_id : String) (external_user_id : Option String) (now : Nat) :
    (Dialog × Bool) × Store :=
  match latest_open s bot_id channel_type external_chat_id with
  | some d => ((d, false), s)
  | none =>
    let d : Dialog := {
      id := s.next_dialog_id
      bot_id := bot_id
      channel_type := channel_type
      external_chat_id := external_chat_id
      external_user_id := pyOrStr external_user_id external_chat_id
      status := .auto
      closed := false
      last_message_at := now
      last_user_message_at := none
      unread_messages_count := 0
      is_locked := false
      locked_until := none
      assigned_admin_id := none
      waiting_time_seconds := 0
      created_at := now
      updated_at := now }
    ((d, true), { s with dialogs := s.dialogs ++ [d],
                         next_dialog_id := s.next_dialog_id + 1 })

/-- Schema DialogCreate (dialogs/schemas.py lines 25-34). -/
structure DialogCreate where
  bot_id : Nat
  channel_type : ChannelType
  external_chat_id : String
  external_user_id : String
  status : DialogStatus
  closed : Bool
deriving Repr, DecidableEq

/-- DialogsService.create (service.py lines 39-51): inserts unconditionally,
with no look-up of an existing open dialog for the same key.  The status
value is already an enum here, so normalize_dialog_status is the identity. -/
def create (s : Store) (obj_in : DialogCreate) (now : Nat) : Dialog × Store :=
  let d : Dialog := {
    id := s.next_dialog_id
    bot_id := obj_in.bot_id
    channel_type := obj_in.channel_type
    external_chat_id := obj_in.external_chat_id
    external_user_id := obj_in.external_user_id
    status := obj_in.status
    closed := obj_in.closed
    last_message_at := now
    last_user_message_at := none
    unread_messages_count := 0
    is_locked := false
    locked_until := none
    assigned_admin_id := none
    waiting_time_seconds := 0
    created_at := now
    updated_at := now }
  (d, { s with dialogs := s.dialogs ++ [d], next_dialog_id := s.next_dialog_id + 1 })

/-- DialogsService.update (service.py lines 184-193): setattr for each field
supplied in the DialogUpdate; the updated_at column is bumped by its
onupdate hook at commit. -/
def update (db_obj : Dialog) (obj_in : DialogUpdate) (now : Nat) : Dialog :=
  let d := db_obj
  let d := match obj_in.status with | some v => { d with status := v } | none => d
  let d := match obj_in.closed with | some v => { d with closed := v } | none => d
  let d := match obj_in.assigned_admin_id with
    | some v => { d with assigned_admin_id := v } | none => d
  let d := match obj_in.is_locked with | some v => { d with is_locked := v } | none => d
  let d := match obj_in.locked_until with
    | some v => { d with locked_until := v } | none => d
  let d := match obj_in.unread_messages_count with
    | some v => { d with unread_messages_count := v } | none => d
  let d := match obj_in.waiting_time_seconds with
    | some v => { d with waiting_time_seconds := v } | none => d
  { d with updated_at := now }

/-- DialogsService.close_dialog (service.py lines 195-202). -/
def close_dialog (dialog : Dialog) (now : Nat) : Dialog :=
  { dialog with closed := true, updated_at := now }

/-- DialogsService.lock_dialog (service.py lines 204-219). -/
def lock_dialog (dialog : Dialog) (admin_id : Nat) (now : Nat) :
    Except DialogsError Dialog :=
  if ¬ (dialog.assigned_admin_id = none ∨ dialog.assigned_admin_id = some admin_id) then
    .error (.lockConflict "Dialog is assigned to another operator")
  else if dialog.is_locked = true ∧ dialog.assigned_admin_id ≠ some admin_id then
    .error (.lockConflict "Dialog is already locked by another operator")
  else
    .ok { dialog with
      is_locked := true
      assigned_admin_id := some admin_id
      locked_until := none
      updated_at := now }

/-- DialogsService.unlock_dialog (service.py lines 221-233). -/
def unlock_dialog (dialog : Dialog) (admin_id : Nat) (now : Nat) :
    Except DialogsError Dialog :=
  if ¬ (dialog.assigned_admin_id = none ∨ dialog.assigned_admin_id = some admin_id) then
    .error (.lockConflict "Dialog is locked by another operator")
  else
    .ok { dialog with
      is_locked := false
      locked_until := none
      assigned_admin_id := none
      updated_at := now }

/-- DialogsService.unlock_if_expired (service.py lines 235-247).  A datetime
value is always truthy, so the guard is: locked, locked_until set, and in the
past.  The releasing identity is the stale assignee (0 when unassigned), for
which unlock_dialog cannot conflict; the error arm is therefore unreachable
and returns the dialog unchanged. -/
def unlock_if_expired (dialog : Dialog) (now : Nat) : Dialog × Bool :=
  match dialog.locked_until with
  | some t =>
    if dialog.is_locked = true ∧ t < now then
      match unlock_dialog dialog (dialog.assigned_admin_id.getD 0) now with
      | .ok d => (d, true)
      | .error _ => (dialog, false)
    else (dialog, false)
  | none => (dialog, false)

/-- DialogsService.add_message (service.py lines 350-398). -/
def add_message (s : Store) (bot_id : Nat) (channel_type : ChannelType)
    (external_chat_id external_user_id : String) (sender : MessageSender)
    (text : Option String) (payload : Option Json) (now : Nat) :
    (DialogMessage × Dialog × Bool) × Store :=
  let r := get_or_create_dialog s bot_id channel_type external_chat_id
    (some external_user_id) now
  let dialog := r.1.1
  let dialog_created := r.1.2
  let s := r.2
  let dialog := { dialog with closed := false }
  let dialog :=
    if sender = .user then
      { dialog with
        status := .wait_operator
        last_user_message_at := some now
        waiting_time_seconds := 0
        unread_messages_count := dialog.unread_messages_count + 1 }
    else
      { dialog with
        status := .wait_user
        waiting_time_seconds :=
          match dialog.last_user_message_at with
          | some t => now - t
          | none => 0
        unread_messages_count := 0 }
  let dialog := { dialog with updated_at := now, last_message_at := now }
  let message : DialogMessage := {
    id := s.next_message_id
    dialog_id := dialog.id
    sender := sender
    text := text
    payload := payload
    created_at := now
    updated_at := now }
  ((message, dialog, dialog_created), append_message (commit_dialog s dialog) message)

/-! ## Auto-answer pipeline (ai/service.py, ai/rag.py)

Floating-point similarity scores are modelled as rationals; the embedding
vectors and the cosine computation (ai/rag.py lines 66-75) are abstracted
into the per-question score oracle of RagEnv, since no claim constrains the
numeric value of a similarity, only comparisons against the fixed floor and
threshold.  An Except.error from an oracle models the RuntimeError that
ai/service.py catches; other exception classes would propagate out of
generate_answer and yield no AIAnswer at all. -/

structure AIInstructions where
  system_prompt : Option String
deriving Repr, DecidableEq

structure KnowledgeChunk where
  id : Nat
  text : String
deriving Repr, DecidableEq

/-- Retrieval environment for one question: the chunks of the bot that carry
a non-null embedding, the similarity oracle for that question, whether
embedding the question yields a non-empty vector, and whether the embeddings
client raises RuntimeError. -/
structure RagEnv where
  embed_raises : Bool
  embed_ok : Bool
  chunks : List KnowledgeChunk
  score : KnowledgeChunk → Rat

/-- RAGService.find_relevant_chunks (ai/rag.py lines 34-64), at its default
arguments top_k=5 and min_similarity=0.3: score every embedded chunk, keep
those at or above the floor, stable-sort descending by score, take the top
five.  Python list.sort is stable, as is List.mergeSort. -/
def find_relevant_chunks (env : RagEnv) : Except Unit (List (KnowledgeChunk × Rat)) :=
  if env.embed_raises then .error ()
  else if env.embed_ok = false then .ok []
  else
    let scored := env.chunks.filterMap (fun c =>
      if env.score c ≥ 3/10 then some (c, env.score c) else none)
    .ok ((scored.mergeSort (fun a b => b.2 ≤ a.2)).take 5)

/-- Modelled from the spec: RAGService.has_knowledge is awaited by
AIService.generate_answer (ai/service.py line 61) but its definition is not
under src/.  Per the spec (section 4.4, "Bot has a knowledge base") it
reports whether the bot has a knowledge base, i.e. stored knowledge
chunks. -/
def has_knowledge (env : RagEnv) : Bool := !env.chunks.isEmpty

/-- Python max(generator, default=d). -/
def pyMaxRat (l : List Rat) (dflt : Rat) : Rat :=
  match l with
  | [] => dflt
  | x :: xs => xs.foldl max x

/-- AIService._build_system_prompt (ai/service.py lines 202-209). -/
def build_system_prompt (instructions : Option AIInstructions) (hint_mode : Bool) :
    String :=
  let base := "You are a helpful assistant. Use provided instructions and context to answer."
  let base :=
    match instructions with
    | some i =>
      match i.system_prompt with
      | some p => if p ≠ "" then p else base
      | none => base
    | none => base
  if hint_mode then
    base ++ "\nRespond with short hints rather than full answers."
  else base

structure AIAnswer where
  can_answer : Bool
  answer : Option String
  confidence : Rat
  used_chunk_ids : List Nat
deriving Repr, DecidableEq

/-- Environment of one AIService.generate_answer call: the stored
instructions row, the retrieval environment, and the LLM generate oracle
taking (system_prompt, history, question, context_chunks). -/
structure AIEnv where
  instructions : Option AIInstructions
  rag : RagEnv
  llm : String → List (String × String) → String → List String → Except Unit String

/-- AIService.generate_answer (ai/service.py lines 49-158).  The history is
the role-tagged transcript produced by _load_history; it only feeds the LLM
oracle. -/
def generate_answer (env : AIEnv) (history : List (String × String))
    (user_message : String) (hint_mode : Bool) : AIAnswer :=
  let system_prompt := build_system_prompt env.instructions hint_mode
  let knowledge_enabled := has_knowledge env.rag
  let strict_guard_enabled :=
    knowledge_enabled ||
      (match env.instructions with
       | some i => decide ((i.system_prompt.getD "").trim ≠ "")
       | none => false)
  if strict_guard_enabled = false then
    match env.llm system_prompt history user_message [] with
    | .error _ => ⟨false, none, 0, []⟩
    | .ok t => ⟨decide (t ≠ ""), if t = "" then none else some t, 0, []⟩
  else if knowledge_enabled then
    match find_relevant_chunks env.rag with
    | .error _ => ⟨false, none, 0, []⟩
    | .ok [] => ⟨false, none, 0, []⟩
    | .ok (c :: cs) =>
      let relevant_chunks := c :: cs
      let chunk_texts := relevant_chunks.map (fun p => p.1.text)
      let used_chunk_ids := relevant_chunks.map (fun p => p.1.id)
      let confidence := pyMaxRat (relevant_chunks.map (fun p => p.2)) 0
      match env.llm system_prompt history user_message chunk_texts with
      | .error _ => ⟨false, none, confidence, used_chunk_ids⟩
      | .ok t =>
        let can := decide (t ≠ "" ∧ confidence ≥ 35/100)
        ⟨can, if can then some t else none, confidence, used_chunk_ids⟩
  else
    match env.llm system_prompt history user_message [] with
    | .error _ => ⟨false, none, 0, []⟩
    | .ok t => ⟨decide (t ≠ ""), if t = "" then none else some t, 0, []⟩

/-- AIService.answer (ai/service.py lines 160-174), the public wrapper. -/
def ai_answer (env : AIEnv) (history : List (String × String))
    (question : String) (hint_mode : Bool) : AIAnswer :=
  generate_answer env history question hint_mode

/-! ## Orchestrator (dialogs/service.py)

process_incoming_message takes the AIAnswer that ai_service.answer returns
for this call as a parameter; the bitrix side-channel sync is fire-and-forget
with no effect on the dialog state and is not modelled.  The clock arguments:
now is the instant of phase one (user-message persistence, service.py line
422), now2 the instant of the auto-answer phase (lines 469, 490-496, 513).
Outbound sends are returned as records of the get_sender(...)().send_text
calls issued. -/

def handoff_text : String := "Бот временно не может ответить, передаем оператору..."

structure SendRecord where
  channel_type : ChannelType
  bot_id : Nat
  external_chat_id : String
  text : String
deriving Repr, DecidableEq

structure ProcessResult where
  user_message : DialogMessage
  bot_message : Option DialogMessage
  dialog : Dialog
  dialog_created : Bool
  store : Store
  sends : List SendRecord

/-- The stop guard of service.py lines 453-457: assigned_admin_id is not
None AND locked_until is not None AND locked_until > now. -/
def active_lock (d : Dialog) (now : Nat) : Bool :=
  d.assigned_admin_id.isSome &&
    (match d.locked_until with
     | some t => decide (now < t)
     | none => false)

/-- The phase-one mutation of service.py lines 424-430: reopen, WAIT_OPERATOR,
stamp the clocks, reset the waiting counter, bump unread. -/
def incoming_phase1 (d : Dialog) (now : Nat) : Dialog :=
  { d with
    closed := false
    status := .wait_operator
    updated_at := now
    last_message_at := now
    last_user_message_at := some now
    waiting_time_seconds := 0
    unread_messages_count := d.unread_messages_count + 1 }

/-- DialogsService.process_incoming_message (service.py lines 406-518). -/
def process_incoming_message (s : Store) (m : NormalizedIncomingMessage)
    (ai : AIAnswer) (now now2 : Nat) : ProcessResult :=
  let r := get_or_create_dialog s m.bot_id m.channel_type m.external_chat_id
    (some m.external_user_id) now
  let dialog := r.1.1
  let dialog_created := r.1.2
  let s := r.2
  let dialog := incoming_phase1 (unlock_if_expired dialog now).1 now
  let user_message : DialogMessage := {
    id := s.next_message_id
    dialog_id := dialog.id
    sender := .user
    text := m.text
    payload := m.payload
    created_at := now
    updated_at := now }
  let s := append_message (commit_dialog s dialog) user_message
  if active_lock dialog now then
    ⟨user_message, none, dialog, dialog_created, s, []⟩
  else if ai.answer = none ∨ ai.answer = some "" then
    let dialog := { dialog with status := .wait_operator, updated_at := now2 }
    let system_message : DialogMessage := {
      id := s.next_message_id
      dialog_id := dialog.id
      sender := .bot
      text := some handoff_text
      payload := some (Json.obj [("system", Json.bool true)])
      created_at := now2
      updated_at := now2 }
    let s := append_message (commit_dialog s dialog) system_message
    ⟨user_message, some system_message, dialog, dialog_created, s, []⟩
  else if ai.can_answer = true ∧ ai.answer.getD "" ≠ "" then
    let t := ai.answer.getD ""
    let bot_message : DialogMessage := {
      id := s.next_message_id
      dialog_id := dialog.id
      sender := .bot
      text := some t
      payload := none
      created_at := now2
      updated_at := now2 }
    let bot_response_time_seconds :=
      match dialog.last_user_message_at with
      | some lu => now2 - lu
      | none => 0
    let dialog := { dialog with
      status := .wait_user
      updated_at := now2
      last_message_at := now2
      waiting_time_seconds := bot_response_time_seconds
      unread_messages_count := 0 }
    let s := append_message (commit_dialog s dialog) bot_message
    ⟨user_message, some bot_message, dialog, dialog_created, s,
      [⟨m.channel_type, m.bot_id, m.external_chat_id, t⟩]⟩
  else
    let dialog := { dialog with status := .wait_operator, updated_at := now2 }
    let s := commit_dialog s dialog
    ⟨user_message, none, dialog, dialog_created, s, []⟩

structure SwitchResult where
  dialog : Dialog
  store : Store
  sends : List SendRecord
  broadcast_events : List String

/-- The dialog row switch_to_auto commits before consulting the pipeline
(service.py lines 264-272): status AUTO, lock fields cleared. -/
def switch_base (d : Dialog) (now : Nat) : Dialog :=
  { d with
    status := .auto
    is_locked := false
    locked_until := none
    assigned_admin_id := none
    updated_at := now }

/-- DialogsService.switch_to_auto (service.py lines 249-348).  The AIAnswer
parameter is what ai_service.answer returns for the latest user message.
The dialog.messages relationship is the messages of the dialog in insertion
order; now stamps the first commit (line 268), now2 the branch taken
afterwards.  The websocket fan-out is recorded as an event-name list; no
get_sender dispatch exists anywhere in this method, so sends is always
empty. -/
def switch_to_auto (s : Store) (dialog : Dialog) (admin_id : Nat)
    (ai : AIAnswer) (now now2 : Nat) : Except DialogsError SwitchResult :=
  if dialog.closed = true then .error (.valueError "Dialog is closed")
  else if ¬ (dialog.assigned_admin_id = none ∨ dialog.assigned_admin_id = some admin_id) then
    .error (.lockConflict "Dialog is locked by another operator")
  else
    let dialog := switch_base dialog now
    let s := commit_dialog s dialog
    let last_message := (s.messages.filter (fun msg => msg.dialog_id = dialog.id)).getLast?
    match last_message with
    | some lm =>
      if lm.sender = .user then
        if ai.answer = none ∨ ai.answer = some "" then
          let dialog := { dialog with status := .wait_operator, updated_at := now2 }
          let system_message : DialogMessage := {
            id := s.next_message_id
            dialog_id := dialog.id
            sender := .bot
            text := some handoff_text
            payload := some (Json.obj [("system", Json.bool true)])
            created_at := now2
            updated_at := now2 }
          let s := append_message (commit_dialog s dialog) system_message
          .ok ⟨dialog, s, [], ["message_created", "dialog_updated"]⟩
        else if ai.can_answer = true ∧ ai.answer.getD "" ≠ "" then
          let t := ai.answer.getD ""
          let r := add_message s dialog.bot_id dialog.channel_type
            dialog.external_chat_id dialog.external_user_id .bot (some t) none now2
          let updated_dialog := r.1.2.1
          let s := r.2
          let updated_dialog := { updated_dialog with
            status := .auto
            updated_at := now2
            is_locked := false
            locked_until := none
            assigned_admin_id := none }
          let s := commit_dialog s updated_dialog
          .ok ⟨updated_dialog, s, [], ["message_created", "dialog_updated"]⟩
        else .ok ⟨dialog, s, [], []⟩
      else .ok ⟨dialog, s, [], []⟩
    | none => .ok ⟨dialog, s, [], []⟩

/-! ## Channel senders (channels/avito_sender.py, channels/sender_registry.py)

Only the control flow of send_text matters for the claims: which
configuration gaps cause an early return, which HTTP outcomes are swallowed,
and which exceptions are re-raised to the caller.  HTTP calls are oracle
fields; the diagnostics sink is recorded as the list of statuses logged. -/

inductive HttpFailure where
  | statusError (code : Nat)
  | requestError
deriving Repr, DecidableEq

structure HttpResponse where
  status_code : Nat
  json_ok : Option Bool
deriving Repr, DecidableEq

/-- httpx Response.is_success: a 2xx status. -/
def HttpResponse.is_success (r : HttpResponse) : Bool :=
  decide (200 ≤ r.status_code ∧ r.status_code < 300)

/-- Python truthiness of an optional string (None and the empty string are
falsy). -/
def strTruthy (o : Option String) : Bool :=
  match o with
  | some s => decide (s ≠ "")
  | none => false

inductive SendOutcome where
  | completed
  | raised
deriving Repr, DecidableEq

/-- Environment of one AvitoSender.send_text call. -/
structure AvitoEnv where
  channel_user_id : Option (Option String)
  access_token : Option String
  first_response : Except HttpFailure HttpResponse
  refresh_result : Except HttpFailure (Option String)
  retry_response : Except HttpFailure HttpResponse

/-- AvitoSender.send_text (channels/avito_sender.py lines 44-173).
channel_user_id: none models no configured Avito channel, some uid the
decrypted channel with config.get("user_id") = uid.  access_token is the
get_valid_access_token result, refresh_result the request_access_token call
made on a 401/403, retry_response the retried POST.  The except blocks at
lines 137-173 log and then re-raise, which the result models as
SendOutcome.raised. -/
def avito_send_text (env : AvitoEnv) : SendOutcome × List String :=
  match env.channel_user_id with
  | none => (.completed, [])
  | some user_id =>
    if strTruthy env.access_token = false then (.completed, [])
    else if strTruthy user_id = false then (.completed, [])
    else
      match env.first_response with
      | .error _ => (.raised, ["fail"])
      | .ok response =>
        let final_response : Except HttpFailure HttpResponse :=
          if response.status_code = 401 ∨ response.status_code = 403 then
            match env.refresh_result with
            | .error e => .error e
            | .ok tok => if strTruthy tok then env.retry_response else .ok response
          else .ok response
        match final_response with
        | .error _ => (.raised, ["fail"])
        | .ok r =>
          if r.is_success then (.completed, ["ok"]) else (.completed, ["fail"])

/-- Environment of one TelegramSender.send_text call. -/
structure TelegramEnv where
  channel_token : Option (Option String)
  send_result : Except HttpFailure HttpResponse

/-- TelegramSender.send_text (channels/sender_registry.py lines 64-178).
channel_token: none models no configured Telegram channel, some tok the
decrypted channel with its bot token.  send_result is the
send_telegram_message call; raise_for_status raises on a 4xx/5xx status and
json_ok = none models a body whose JSON parse raises.  Every except branch
(HTTPStatusError, RequestError, bare Exception) swallows the error, so the
outcome is always SendOutcome.completed. -/
def telegram_send_text (env : TelegramEnv) : SendOutcome × List String :=
  match env.channel_token with
  | none => (.completed, [])
  | some token =>
    if strTruthy token = false then (.completed, [])
    else
      match env.send_result with
      | .error _ => (.completed, ["fail"])
      | .ok response =>
        if decide (400 ≤ response.status_code) then (.completed, ["fail"])
        else
          match response.json_ok with
          | none => (.completed, ["fail"])
          | some ok => if ok then (.completed, ["ok"]) else (.completed, ["fail"])

/-- The outcome of the get_sender(channel_type)().send_text dispatch for one
recorded send, by channel: Avito sends go through AvitoSender.send_text,
every other registered sender (modelled by TelegramSender, whose except
branches all swallow) completes. -/
def dispatch_outcome (avito : AvitoEnv) (tg : TelegramEnv)
    (sr : SendRecord) : SendOutcome :=
  match sr.channel_type with
  | .avito => (avito_send_text avito).1
  | _ => (telegram_send_text tg).1

/-- The dispatch phase of DialogsService.process_incoming_message
(service.py lines 505-510): after the bot message is persisted and
committed, the method awaits sender_cls().send_text with no try/except
around it, so an exception raised by the sender propagates out of
process_incoming_message and the computed (user_message, bot_message) pair
is never returned to the caller.  The outcome function abstracts the channel
sender's behavior on each dispatched send. -/
def process_incoming_dispatched (s : Store) (m : NormalizedIncomingMessage)
    (ai : AIAnswer) (now now2 : Nat) (outcome : SendRecord → SendOutcome) :
    Except String ProcessResult :=
  let r := process_incoming_message s m ai now now2
  if r.sends.all (fun sr => outcome sr == SendOutcome.completed) then
    Except.ok r
  else Except.error "send raised"

/-! ## Shared fixtures and helper lemmas -/

def sampleDialog : Dialog := {
  id := 1
  bot_id := 1
  channel_type := .webchat
  external_chat_id := "chat-1"
  external_user_id := "user-1"
  status := .auto
  closed := false
  last_message_at := 0
  last_user_message_at := none
  unread_messages_count := 0
  is_locked := false
  locked_until := none
  assigned_admin_id := none
  waiting_time_seconds := 0
  created_at := 0
  updated_at := 0 }

def sampleMsg : NormalizedIncomingMessage := {
  bot_id := 1
  channel_id := 1
  channel_type := .webchat
  external_chat_id := "chat-1"
  external_user_id := "user-1"
  external_message_id := none
  text := some "Hi"
  payload := none }

/-- The lock-implies-assignee invariant of the spec. -/
def LockInv (d : Dialog) : Prop :=
  d.is_locked = true → d.assigned_admin_id ≠ none

/-- Every dialog row of the store satisfies LockInv. -/
def StoreLockInv (s : Store) : Prop :=
  ∀ d ∈ s.dialogs, LockInv d

theorem pickLatest_foldl_mem (l : List Dialog) (acc : Option Dialog) (d : Dialog)
    (h : l.foldl pickLatest acc = some d) : d ∈ l ∨ acc = some d := by
  induction l generalizing acc with
  | nil => exact Or.inr h
  | cons x xs ih =>
    rcases ih (pickLatest acc x) h with hm | he
    · exact Or.inl (List.mem_cons_of_mem x hm)
    · cases acc with
      | none =>
        simp only [pickLatest, Option.some.injEq] at he
        exact Or.inl (he ▸ List.mem_cons_self x xs)
      | some b =>
        by_cases hb : x.updated_at > b.updated_at
        · rw [pickLatest, if_pos hb] at he
          simp only [Option.some.injEq] at he
          exact Or.inl (he ▸ List.mem_cons_self x xs)
        · rw [pickLatest, if_neg hb] at he
          exact Or.inr he

theorem pickLatest_isSome (acc : Option Dialog) (d : Dialog) :
    ∃ x, pickLatest acc d = some x := by
  cases acc with
  | none => exact ⟨d, rfl⟩
  | some b =>
    by_cases hb : d.updated_at > b.updated_at
    · exact ⟨d, by rw [pickLatest, if_pos hb]⟩
    · exact ⟨b, by rw [pickLatest, if_neg hb]⟩

theorem pickLatest_foldl_ne_none (l : List Dialog) (acc : Dialog) :
    l.foldl pickLatest (some acc) ≠ none := by
  induction l generalizing acc with
  | nil => simp
  | cons x xs ih =>
    by_cases hb : x.updated_at > acc.updated_at
    · simpa [pickLatest, hb] using ih x
    · simpa [pickLatest, hb] using ih acc

theorem latest_open_mem (s : Store) (b : Nat) (ct : ChannelType) (chat : String)
    (d : Dialog) (h : latest_open s b ct chat = some d) :
    d ∈ s.dialogs ∧ sameOpenKey b ct chat d := by
  unfold latest_open at h
  rcases pickLatest_foldl_mem _ _ _ h with hm | he
  · rw [List.mem_filter] at hm
    exact ⟨hm.1, of_decide_eq_true hm.2⟩
  · cases he

theorem latest_open_none (s : Store) (b : Nat) (ct : ChannelType) (chat : String)
    (h : latest_open s b ct chat = none) :
    ∀ d ∈ s.dialogs, ¬ sameOpenKey b ct chat d := by
  intro d hd hk
  unfold latest_open at h
  have hmem : d ∈ s.dialogs.filter (fun x => decide (sameOpenKey b ct chat x)) := by
    rw [List.mem_filter]
    exact ⟨hd, decide_eq_true hk⟩
  rcases List.append_of_mem hmem with ⟨l1, l2, hsplit⟩
  rw [hsplit, List.foldl_append, List.foldl_cons] at h
  rcases pickLatest_isSome (List.foldl pickLatest none l1) d with ⟨x, hx⟩
  rw [hx] at h
  exact pickLatest_foldl_ne_none l2 x h

/-- The row lock_dialog commits on success. -/
def lockedState (d : Dialog) (a now : Nat) : Dialog :=
  { d with
    is_locked := true
    assigned_admin_id := some a
    locked_until := none
    updated_at := now }

/-- The row unlock_dialog commits on success. -/
def unlockedState (d : Dialog) (now : Nat) : Dialog :=
  { d with
    is_locked := false
    locked_until := none
    assigned_admin_id := none
    updated_at := now }

theorem lock_ok (d : Dialog) (a now : Nat) (h1 : d.assigned_admin_id = none)
    (h2 : d.is_locked = false) :
    lock_dialog d a now = .ok (lockedState d a now) := by
  simp [lock_dialog, lockedState, h1, h2]

theorem lock_conflict_assigned (d : Dialog) (x c now : Nat)
    (h : d.assigned_admin_id = some c) (hc : c ≠ x) :
    lock_dialog d x now =
      .error (.lockConflict "Dialog is assigned to another operator") := by
  simp [lock_dialog, h, hc]

theorem unlock_ok (d : Dialog) (a now : Nat)
    (h : d.assigned_admin_id = none ∨ d.assigned_admin_id = some a) :
    unlock_dialog d a now = .ok (unlockedState d now) := by
  rw [unlock_dialog, if_neg (not_not_intro h)]
  rfl

theorem unlock_conflict (d : Dialog) (x c now : Nat)
    (h : d.assigned_admin_id = some c) (hc : c ≠ x) :
    unlock_dialog d x now =
      .error (.lockConflict "Dialog is locked by another operator") := by
  simp [unlock_dialog, h, hc]

/-! ## Claim theorems -/

/-- C5: if admin a has locked dialog d (starting unassigned and unlocked),
admin b's lock fails with the DialogLockConflict error and, being an error,
leaves the dialog row unchanged; a's unlock succeeds and clears is_locked,
locked_until and assigned_admin_id; b's subsequent lock then succeeds.  In
general, a lock or unlock by an operator who is not the current assignee of
an assigned dialog fails with the conflict error and never overrides the
assignment. -/
theorem C5_lock_conflict_protocol :
    (∀ (d : Dialog) (a b n1 n2 n3 n4 : Nat),
      d.assigned_admin_id = none → d.is_locked = false → a ≠ b →
      lock_dialog d a n1 = .ok (lockedState d a n1) ∧
      (lockedState d a n1).is_locked = true ∧
      (lockedState d a n1).assigned_admin_id = some a ∧
      lock_dialog (lockedState d a n1) b n2 =
        .error (.lockConflict "Dialog is assigned to another operator") ∧
      unlock_dialog (lockedState d a n1) a n3 =
        .ok (unlockedState (lockedState d a n1) n3) ∧
      (unlockedState (lockedState d a n1) n3).is_locked = false ∧
      (unlockedState (lockedState d a n1) n3).locked_until = none ∧
      (unlockedState (lockedState d a n1) n3).assigned_admin_id = none ∧
      lock_dialog (unlockedState (lockedState d a n1) n3) b n4 =
        .ok (lockedState (unlockedState (lockedState d a n1) n3) b n4)) ∧
    (∀ (d : Dialog) (x c now : Nat), d.assigned_admin_id = some c → c ≠ x →
      lock_dialog d x now =
        .error (.lockConflict "Dialog is assigned to another operator") ∧
      unlock_dialog d x now =
        .error (.lockConflict "Dialog is locked by another operator")) := by
  constructor
  · intro d a b n1 n2 n3 n4 h1 h2 hab
    exact ⟨lock_ok d a n1 h1 h2, by rfl, by rfl,
      lock_conflict_assigned _ b a n2 (by rfl) hab,
      unlock_ok _ a n3 (Or.inr (by rfl)), by rfl, by rfl, by rfl,
      lock_ok _ b n4 (by rfl) (by rfl)⟩
  · intro d x c now h1 h2
    exact ⟨lock_conflict_assigned d x c now h1 h2,
      unlock_conflict d x c now h1 h2⟩

/-- C5 witness: the protocol at a concrete dialog with admins 1 and 2. -/
theorem C5_lock_conflict_protocol_witness :
    lock_dialog sampleDialog 1 10 = .ok (lockedState sampleDialog 1 10) ∧
    (lockedState sampleDialog 1 10).is_locked = true ∧
    (lockedState sampleDialog 1 10).assigned_admin_id = some 1 ∧
    lock_dialog (lockedState sampleDialog 1 10) 2 11 =
      .error (.lockConflict "Dialog is assigned to another operator") ∧
    unlock_dialog (lockedState sampleDialog 1 10) 1 12 =
      .ok (unlockedState (lockedState sampleDialog 1 10) 12) ∧
    (unlockedState (lockedState sampleDialog 1 10) 12).is_locked = false ∧
    (unlockedState (lockedState sampleDialog 1 10) 12).locked_until = none ∧
    (unlockedState (lockedState sampleDialog 1 10) 12).assigned_admin_id = none ∧
    lock_dialog (unlockedState (lockedState sampleDialog 1 10) 12) 2 13 =
      .ok (lockedState (unlockedState (lockedState sampleDialog 1 10) 12) 2 13) := by
  have h := C5_lock_conflict_protocol.1 sampleDialog 1 2 10 11 12 13 rfl rfl
    (by decide)
  exact ⟨h.1, h.2.1, h.2.2.1, h.2.2.2.1, h.2.2.2.2.1, h.2.2.2.2.2.1,
    h.2.2.2.2.2.2.1, h.2.2.2.2.2.2.2.1, h.2.2.2.2.2.2.2.2⟩

/-- C3: the claim that no registered sender ever raises is violated by
AvitoSender.send_text, which re-raises the transport error after logging it
(avito_sender.py lines 137-173): with a configured channel, a valid token
and a user_id, a connection failure on the POST escapes send_text.  By
contrast TelegramSender.send_text swallows every failure and always returns
to its caller, whatever the environment. -/
theorem C3_avito_send_raises_telegram_does_not :
    avito_send_text {
      channel_user_id := some (some "42")
      access_token := some "tok"
      first_response := .error .requestError
      refresh_result := .ok none
      retry_response := .ok ⟨200, none⟩ } = (.raised, ["fail"]) ∧
    (∀ env : TelegramEnv, (telegram_send_text env).1 = .completed) := by
  constructor
  · rfl
  · intro env
    rcases env with ⟨ct, sr⟩
    cases ct with
    | none => rfl
    | some token =>
      by_cases ht : strTruthy token = false
      · simp [telegram_send_text, ht]
      · cases sr with
        | error e => simp [telegram_send_text, ht]
        | ok r =>
          rcases r with ⟨code, jok⟩
          by_cases hc : 400 ≤ code
          · simp [telegram_send_text, ht, hc]
          · cases jok with
            | none => simp [telegram_send_text, ht, hc]
            | some ok => cases ok <;> simp [telegram_send_text, ht, hc]

/-- An auto-answer pipeline result that answers, used to exercise the
orchestrator. -/
def ansYes : AIAnswer := ⟨true, some "Answer", 1, []⟩

/-- C1: after lock_dialog(d, 7) the dialog has is_locked=true,
assigned_admin_id=7 and locked_until=None, yet process_incoming_message does
NOT stop after the user message: the stop guard of service.py lines 453-457
requires locked_until to be a future instant, which lock_dialog has just
cleared, so the auto-answer pipeline result is persisted as a bot message
and dispatched through the channel sender while the operator holds the
lock. -/
theorem C1_locked_dialog_still_auto_answers :
    lock_dialog sampleDialog 7 3 = .ok (lockedState sampleDialog 7 3) ∧
    (lockedState sampleDialog 7 3).is_locked = true ∧
    (lockedState sampleDialog 7 3).assigned_admin_id = some 7 ∧
    (lockedState sampleDialog 7 3).locked_until = none ∧
    active_lock (lockedState sampleDialog 7 3) 10 = false ∧
    (process_incoming_message ⟨[lockedState sampleDialog 7 3], [], 2, 1⟩
      sampleMsg ansYes 10 11).bot_message.isSome = true ∧
    (process_incoming_message ⟨[lockedState sampleDialog 7 3], [], 2, 1⟩
      sampleMsg ansYes 10 11).sends.length = 1 ∧
    (process_incoming_message ⟨[lockedState sampleDialog 7 3], [], 2, 1⟩
      sampleMsg ansYes 10 11).dialog.assigned_admin_id = some 7 ∧
    (process_incoming_message ⟨[lockedState sampleDialog 7 3], [], 2, 1⟩
      sampleMsg ansYes 10 11).dialog.is_locked = true := by
  refine ⟨lock_ok sampleDialog 7 3 rfl rfl, rfl, rfl, rfl, rfl, ?_, ?_, ?_, ?_⟩ <;> rfl

/-! ## Preservation of the lock invariant -/

theorem LockInv_of_lock (d : Dialog) (a now : Nat) (d' : Dialog)
    (h : lock_dialog d a now = Except.ok d') : LockInv d' := by
  by_cases hA : d.assigned_admin_id = none ∨ d.assigned_admin_id = some a
  · by_cases hB : d.is_locked = true ∧ d.assigned_admin_id ≠ some a
    · rw [lock_dialog, if_neg (not_not_intro hA), if_pos hB] at h
      cases h
    · rw [lock_dialog, if_neg (not_not_intro hA), if_neg hB] at h
      simp only [Except.ok.injEq] at h
      subst h
      intro _
      simp
  · rw [lock_dialog, if_pos hA] at h
    cases h

theorem LockInv_of_unlock (d : Dialog) (a now : Nat) (d' : Dialog)
    (h : unlock_dialog d a now = Except.ok d') : LockInv d' := by
  by_cases hA : d.assigned_admin_id = none ∨ d.assigned_admin_id = some a
  · rw [unlock_dialog, if_neg (not_not_intro hA)] at h
    simp only [Except.ok.injEq] at h
    subst h
    intro hl
    cases hl
  · rw [unlock_dialog, if_pos hA] at h
    cases h

theorem LockInv_unlock_if_expired (d : Dialog) (now : Nat) (hd : LockInv d) :
    LockInv (unlock_if_expired d now).1 := by
  unfold unlock_if_expired
  cases hu : d.locked_until with
  | none => exact hd
  | some t =>
    dsimp only
    by_cases hc : d.is_locked = true ∧ t < now
    · rw [if_pos hc]
      cases hok : unlock_dialog d (d.assigned_admin_id.getD 0) now with
      | ok d2 => exact LockInv_of_unlock d _ now d2 hok
      | error e => exact hd
    · rw [if_neg hc]
      exact hd

theorem StoreLockInv_commit (s : Store) (d : Dialog) (hs : StoreLockInv s)
    (hd : LockInv d) : StoreLockInv (commit_dialog s d) := by
  intro x hx
  unfold commit_dialog at hx
  simp only [List.mem_map] at hx
  obtain ⟨y, hy, hxy⟩ := hx
  by_cases hid : y.id = d.id
  · rw [if_pos hid] at hxy
    exact hxy ▸ hd
  · rw [if_neg hid] at hxy
    exact hxy ▸ hs y hy

theorem StoreLockInv_append (s : Store) (m : DialogMessage)
    (hs : StoreLockInv s) : StoreLockInv (append_message s m) := hs

theorem gocd_LockInv (s : Store) (b : Nat) (ct : ChannelType) (chat : String)
    (u : Option String) (now : Nat) (hs : StoreLockInv s) :
    LockInv (get_or_create_dialog s b ct chat u now).1.1 ∧
      StoreLockInv (get_or_create_dialog s b ct chat u now).2 := by
  unfold get_or_create_dialog
  cases hm : latest_open s b ct chat with
  | some d =>
    exact ⟨hs d (latest_open_mem s b ct chat d hm).1, hs⟩
  | none =>
    constructor
    · intro hl
      cases hl
    · intro x hx
      simp only [List.mem_append, List.mem_singleton] at hx
      rcases hx with hx | hx
      · exact hs x hx
      · subst hx
        intro hl
        cases hl

theorem add_message_LockInv (s : Store) (b : Nat) (ct : ChannelType)
    (chat user : String) (sender : MessageSender) (text : Option String)
    (payload : Option Json) (now : Nat) (hs : StoreLockInv s) :
    LockInv (add_message s b ct chat user sender text payload now).1.2.1 ∧
      StoreLockInv (add_message s b ct chat user sender text payload now).2 := by
  obtain ⟨hd, hs2⟩ := gocd_LockInv s b ct chat (some user) now hs
  unfold add_message
  by_cases hsend : sender = MessageSender.user <;>
    simp only [hsend, if_pos, if_neg, reduceIte] <;>
    refine ⟨fun hl => hd hl, StoreLockInv_append _ _ (StoreLockInv_commit _ _ hs2 (fun hl => hd hl))⟩

theorem process_incoming_LockInv (s : Store) (m : NormalizedIncomingMessage)
    (ai : AIAnswer) (now now2 : Nat) (hs : StoreLockInv s) :
    LockInv (process_incoming_message s m ai now now2).dialog ∧
      StoreLockInv (process_incoming_message s m ai now now2).store := by
  obtain ⟨hd0, hs0⟩ := gocd_LockInv s m.bot_id m.channel_type m.external_chat_id
    (some m.external_user_id) now hs
  have hd1 := LockInv_unlock_if_expired _ now hd0
  unfold process_incoming_message
  dsimp only
  constructor
  · split
    · exact fun hl => hd1 hl
    · split
      · exact fun hl => hd1 hl
      · split
        · exact fun hl => hd1 hl
        · exact fun hl => hd1 hl
  · split
    · exact StoreLockInv_append _ _
        (StoreLockInv_commit _ _ hs0 (fun hl => hd1 hl))
    · split
      · exact StoreLockInv_append _ _ (StoreLockInv_commit _ _
          (StoreLockInv_append _ _ (StoreLockInv_commit _ _ hs0 (fun hl => hd1 hl)))
          (fun hl => hd1 hl))
      · split
        · exact StoreLockInv_append _ _ (StoreLockInv_commit _ _
            (StoreLockInv_append _ _ (StoreLockInv_commit _ _ hs0 (fun hl => hd1 hl)))
            (fun hl => hd1 hl))
        · exact StoreLockInv_commit _ _
            (StoreLockInv_append _ _ (StoreLockInv_commit _ _ hs0 (fun hl => hd1 hl)))
            (fun hl => hd1 hl)

theorem switch_base_LockInv (d : Dialog) (now : Nat) : LockInv (switch_base d now) :=
  fun hl => by cases hl

theorem switch_to_auto_LockInv (s : Store) (d : Dialog) (a : Nat)
    (ai : AIAnswer) (now now2 : Nat) (r : SwitchResult) (hs : StoreLockInv s)
    (h : switch_to_auto s d a ai now now2 = Except.ok r) :
    LockInv r.dialog ∧ StoreLockInv r.store := by
  have hbase := switch_base_LockInv d now
  have hsc : StoreLockInv (commit_dialog s (switch_base d now)) :=
    StoreLockInv_commit _ _ hs hbase
  unfold switch_to_auto at h
  by_cases h1 : d.closed = true
  · rw [if_pos h1] at h
    cases h
  · rw [if_neg h1] at h
    by_cases h2 : ¬ (d.assigned_admin_id = none ∨ d.assigned_admin_id = some a)
    · rw [if_pos h2] at h
      cases h
    · rw [if_neg h2] at h
      dsimp only at h
      cases hlm : (List.filter (fun msg => decide (msg.dialog_id = (switch_base d now).id))
          (commit_dialog s (switch_base d now)).messages).getLast? with
      | none =>
        rw [hlm] at h
        dsimp only at h
        simp only [Except.ok.injEq] at h
        subst h
        exact ⟨hbase, hsc⟩
      | some lm =>
        rw [hlm] at h
        dsimp only at h
        by_cases hu : lm.sender = MessageSender.user
        · rw [if_pos hu] at h
          by_cases hans : ai.answer = none ∨ ai.answer = some ""
          · rw [if_pos hans] at h
            try dsimp only at h
            simp only [Except.ok.injEq] at h
            subst h
            exact ⟨fun hl => (by cases hl),
              StoreLockInv_append _ _ (StoreLockInv_commit _ _ hsc (fun hl => (by cases hl)))⟩
          · rw [if_neg hans] at h
            by_cases hcan : ai.can_answer = true ∧ ai.answer.getD "" ≠ ""
            · rw [if_pos hcan] at h
              try dsimp only at h
              obtain ⟨hmL, hmS⟩ := add_message_LockInv
                (commit_dialog s (switch_base d now)) (switch_base d now).bot_id
                (switch_base d now).channel_type (switch_base d now).external_chat_id
                (switch_base d now).external_user_id .bot
                (some (ai.answer.getD "")) none now2 hsc
              simp only [Except.ok.injEq] at h
              subst h
              refine ⟨fun hl => (by cases hl), ?_⟩
              exact StoreLockInv_commit _ _ hmS (fun hl => (by cases hl))
            · rw [if_neg hcan] at h
              simp only [Except.ok.injEq] at h
              subst h
              exact ⟨hbase, hsc⟩
        · rw [if_neg hu] at h
          simp only [Except.ok.injEq] at h
          subst h
          exact ⟨hbase, hsc⟩

/-- An update payload that only sets is_locked=true, as DialogUpdate permits
(dialogs/schemas.py lines 37-44). -/
def lockOnlyUpdate : DialogUpdate := ⟨none, none, none, some true, none, none, none⟩

/-- C7 counterexample: update is among the claimed operations, yet applying
a DialogUpdate that sets only is_locked=true to an unassigned dialog leaves
is_locked=true with assigned_admin_id=None, violating the invariant. -/
theorem C7_update_breaks_lock_invariant :
    (update sampleDialog lockOnlyUpdate 5).is_locked = true ∧
    (update sampleDialog lockOnlyUpdate 5).assigned_admin_id = none := by
  exact ⟨rfl, rfl⟩

/-- C7 amended: is_locked=true implies assigned_admin_id is not None in
every dialog state reachable through lock_dialog, unlock_dialog,
unlock_if_expired, switch_to_auto, close_dialog, add_message and
process_incoming_message; the update operation is excluded since a
DialogUpdate can set is_locked without an assignee. -/
theorem C7_lock_invariant_preserved :
    (∀ (d : Dialog) (a now : Nat) (d' : Dialog),
      lock_dialog d a now = Except.ok d' → LockInv d') ∧
    (∀ (d : Dialog) (a now : Nat) (d' : Dialog),
      unlock_dialog d a now = Except.ok d' → LockInv d') ∧
    (∀ (d : Dialog) (now : Nat), LockInv d → LockInv (unlock_if_expired d now).1) ∧
    (∀ (d : Dialog) (now : Nat), LockInv d → LockInv (close_dialog d now)) ∧
    (∀ (s : Store) (b : Nat) (ct : ChannelType) (chat user : String)
      (sender : MessageSender) (text : Option String) (payload : Option Json)
      (now : Nat), StoreLockInv s →
      LockInv (add_message s b ct chat user sender text payload now).1.2.1 ∧
      StoreLockInv (add_message s b ct chat user sender text payload now).2) ∧
    (∀ (s : Store) (m : NormalizedIncomingMessage) (ai : AIAnswer) (now now2 : Nat),
      StoreLockInv s →
      LockInv (process_incoming_message s m ai now now2).dialog ∧
      StoreLockInv (process_incoming_message s m ai now now2).store) ∧
    (∀ (s : Store) (d : Dialog) (a : Nat) (ai : AIAnswer) (now now2 : Nat)
      (r : SwitchResult), StoreLockInv s →
      switch_to_auto s d a ai now now2 = Except.ok r →
      LockInv r.dialog ∧ StoreLockInv r.store) :=
  ⟨LockInv_of_lock, LockInv_of_unlock, LockInv_unlock_if_expired,
    fun _ _ hd hl => hd hl,
    fun s b ct chat user sender text payload now hs =>
      add_message_LockInv s b ct chat user sender text payload now hs,
    fun s m ai now now2 hs => process_incoming_LockInv s m ai now now2 hs,
    fun s d a ai now now2 r hs h => switch_to_auto_LockInv s d a ai now now2 r hs h⟩

/-- C7 witness: the preserved invariant at concrete inputs, checking the
lock transition and a process_incoming run on a single-dialog store. -/
theorem C7_lock_invariant_preserved_witness :
    LockInv (lockedState sampleDialog 7 3) ∧
    LockInv (process_incoming_message ⟨[sampleDialog], [], 2, 1⟩
      sampleMsg ansYes 10 11).dialog := by
  constructor
  · exact C7_lock_invariant_preserved.1 sampleDialog 7 3
      (lockedState sampleDialog 7 3) (lock_ok sampleDialog 7 3 rfl rfl)
  · refine (C7_lock_invariant_preserved.2.2.2.2.2.1
      ⟨[sampleDialog], [], 2, 1⟩ sampleMsg ansYes 10 11 ?_).1
    intro d hd
    simp only [List.mem_singleton] at hd
    subst hd
    intro hl
    cases hl

/-! ## Uniqueness of the open dialog per key -/

/-- At most one non-closed dialog per (bot_id, channel_type,
external_chat_id). -/
def UniqueOpen (s : Store) : Prop :=
  ∀ d1 ∈ s.dialogs, ∀ d2 ∈ s.dialogs,
    d1.bot_id = d2.bot_id → d1.channel_type = d2.channel_type →
    d1.external_chat_id = d2.external_chat_id →
    d1.closed = false → d2.closed = false → d1 = d2

/-- C4 amended: get_or_create_dialog itself maintains the open-dialog
uniqueness invariant — it returns the existing open dialog for the key when
one exists and inserts a fresh AUTO open dialog only when none is open.  The
claim that no other operation can produce a second open dialog for the same
key is refuted separately: DialogsService.create inserts unconditionally and
the key index on the dialogs table is non-unique. -/
theorem C4_get_or_create_preserves_uniqueness (s : Store) (b : Nat)
    (ct : ChannelType) (chat : String) (u : Option String) (now : Nat)
    (hs : UniqueOpen s) :
    UniqueOpen (get_or_create_dialog s b ct chat u now).2 ∧
    (∀ d, latest_open s b ct chat = some d →
      get_or_create_dialog s b ct chat u now = ((d, false), s)) ∧
    (latest_open s b ct chat = none →
      (get_or_create_dialog s b ct chat u now).1.2 = true ∧
      (get_or_create_dialog s b ct chat u now).1.1.closed = false ∧
      (get_or_create_dialog s b ct chat u now).1.1.status = DialogStatus.auto) := by
  unfold get_or_create_dialog
  cases hm : latest_open s b ct chat with
  | some d0 =>
    dsimp only
    refine ⟨hs, ?_, ?_⟩
    · intro d hd
      injection hd with hd
      subst hd
      rfl
    · intro hnone
      cases hnone
  | none =>
    dsimp only
    refine ⟨?_, ?_, fun _ => ⟨rfl, rfl, rfl⟩⟩
    · have hno := latest_open_none s b ct chat hm
      intro d1 h1 d2 h2 hb hc hch hcl1 hcl2
      simp only [List.mem_append, List.mem_singleton] at h1 h2
      rcases h1 with h1 | h1 <;> rcases h2 with h2 | h2
      · exact hs d1 h1 d2 h2 hb hc hch hcl1 hcl2
      · subst h2
        exact absurd ⟨hb, hc, hch, hcl1⟩ (hno d1 h1)
      · subst h1
        exact absurd ⟨hb.symm, hc.symm, hch.symm, hcl2⟩ (hno d2 h2)
      · subst h1
        subst h2
        rfl
    · intro d hd
      cases hd

/-- C4 witness: starting from the empty store, an open dialog is created
exactly once and the invariant holds afterwards. -/
theorem C4_get_or_create_preserves_uniqueness_witness :
    UniqueOpen (get_or_create_dialog ⟨[], [], 1, 1⟩ 1 .webchat "chat-1"
      (some "user-1") 5).2 ∧
    (∀ d, latest_open ⟨[], [], 1, 1⟩ 1 .webchat "chat-1" = some d →
      get_or_create_dialog ⟨[], [], 1, 1⟩ 1 .webchat "chat-1" (some "user-1") 5 =
        ((d, false), ⟨[], [], 1, 1⟩)) ∧
    (latest_open ⟨[], [], 1, 1⟩ 1 .webchat "chat-1" = none →
      (get_or_create_dialog ⟨[], [], 1, 1⟩ 1 .webchat "chat-1"
        (some "user-1") 5).1.2 = true ∧
      (get_or_create_dialog ⟨[], [], 1, 1⟩ 1 .webchat "chat-1"
        (some "user-1") 5).1.1.closed = false ∧
      (get_or_create_dialog ⟨[], [], 1, 1⟩ 1 .webchat "chat-1"
        (some "user-1") 5).1.1.status = DialogStatus.auto) :=
  C4_get_or_create_preserves_uniqueness ⟨[], [], 1, 1⟩ 1 .webchat "chat-1"
    (some "user-1") 5 (fun d1 h1 => absurd h1 (List.not_mem_nil d1))

/-- A DialogCreate naming the same open-dialog key as sampleDialog. -/
def dupCreate : DialogCreate := ⟨1, .webchat, "chat-1", "user-1", .auto, false⟩

/-- C4 counterexample: DialogsService.create inserts a dialog for an already
open key without any check, leaving two open dialogs for (bot 1, webchat,
chat-1); the claimed invariant is not protected against every operation. -/
theorem C4_create_breaks_uniqueness :
    ((create ⟨[sampleDialog], [], 2, 1⟩ dupCreate 5).2.dialogs.countP
      (fun d => decide (sameOpenKey 1 .webchat "chat-1" d))) = 2 ∧
    ¬ UniqueOpen (create ⟨[sampleDialog], [], 2, 1⟩ dupCreate 5).2 := by
  constructor
  · decide
  · intro h
    have h12 := h sampleDialog (by decide)
      (create ⟨[sampleDialog], [], 2, 1⟩ dupCreate 5).1 (by decide)
      rfl rfl rfl rfl rfl
    exact absurd (congrArg Dialog.id h12) (by decide)

/-! ## The auto-answer branch of process_incoming_message -/

theorem unlock_assigned_none (d : Dialog) (a now : Nat) (d' : Dialog)
    (h : unlock_dialog d a now = Except.ok d') :
    d'.assigned_admin_id = none ∧ d'.is_locked = false := by
  by_cases hA : d.assigned_admin_id = none ∨ d.assigned_admin_id = some a
  · rw [unlock_dialog, if_neg (not_not_intro hA)] at h
    simp only [Except.ok.injEq] at h
    subst h
    exact ⟨rfl, rfl⟩
  · rw [unlock_dialog, if_pos hA] at h
    cases h

theorem unlock_if_expired_assigned (d : Dialog) (now : Nat)
    (h : d.assigned_admin_id = none) :
    (unlock_if_expired d now).1.assigned_admin_id = none := by
  unfold unlock_if_expired
  cases d.locked_until with
  | none => exact h
  | some t =>
    dsimp only
    by_cases hc : d.is_locked = true ∧ t < now
    · rw [if_pos hc]
      cases hok : unlock_dialog d (d.assigned_admin_id.getD 0) now with
      | ok d2 => exact (unlock_assigned_none d _ now d2 hok).1
      | error e => exact h
    · rw [if_neg hc]
      exact h

theorem gocd_found (s : Store) (b : Nat) (ct : ChannelType) (chat : String)
    (u : Option String) (now : Nat) (d : Dialog)
    (hm : latest_open s b ct chat = some d) :
    get_or_create_dialog s b ct chat u now = ((d, false), s) := by
  unfold get_or_create_dialog
  rw [hm]

theorem gocd_assigned (s : Store) (b : Nat) (ct : ChannelType) (chat : String)
    (u : Option String) (now : Nat)
    (h : ∀ d, latest_open s b ct chat = some d → d.assigned_admin_id = none) :
    (get_or_create_dialog s b ct chat u now).1.1.assigned_admin_id = none := by
  unfold get_or_create_dialog
  cases hm : latest_open s b ct chat with
  | some d => exact h d hm
  | none => rfl

theorem active_lock_false_of_unassigned (d : Dialog) (now : Nat)
    (h : d.assigned_admin_id = none) : active_lock d now = false := by
  simp [active_lock, h]

/-- The answering branch in full (service.py lines 482-510, up to the
dispatch): when the pipeline answers (can_answer=true, non-empty text t) and
the open dialog for the key is unassigned (or none exists yet), the
orchestrator persists a bot message with text t as the last message of the
store, sets status WAIT_USER, sets waiting_time_seconds to the whole seconds
elapsed since last_user_message_at (stamped now in phase one), resets
unread_messages_count, issues exactly one send via the channel registry, and
computes the user message together with the bot message. -/
theorem process_incoming_answer_full (s : Store)
    (m : NormalizedIncomingMessage) (ai : AIAnswer) (t : String) (now now2 : Nat)
    (hunassigned : ∀ d,
      latest_open s m.bot_id m.channel_type m.external_chat_id = some d →
      d.assigned_admin_id = none)
    (hcan : ai.can_answer = true) (hans : ai.answer = some t) (ht : t ≠ "") :
    (process_incoming_message s m ai now now2).bot_message.map
      (fun msg => (msg.sender, msg.text)) = some (MessageSender.bot, some t) ∧
    (process_incoming_message s m ai now now2).store.messages.getLast? =
      (process_incoming_message s m ai now now2).bot_message ∧
    (process_incoming_message s m ai now now2).dialog.status =
      DialogStatus.wait_user ∧
    (process_incoming_message s m ai now now2).dialog.last_user_message_at =
      some now ∧
    (process_incoming_message s m ai now now2).dialog.waiting_time_seconds =
      now2 - now ∧
    (process_incoming_message s m ai now now2).dialog.unread_messages_count = 0 ∧
    (process_incoming_message s m ai now now2).sends =
      [⟨m.channel_type, m.bot_id, m.external_chat_id, t⟩] ∧
    (process_incoming_message s m ai now now2).user_message.sender =
      MessageSender.user ∧
    (process_incoming_message s m ai now now2).user_message.text = m.text := by
  have hA := unlock_if_expired_assigned
    (get_or_create_dialog s m.bot_id m.channel_type m.external_chat_id
      (some m.external_user_id) now).1.1 now
    (gocd_assigned s m.bot_id m.channel_type m.external_chat_id
      (some m.external_user_id) now hunassigned)
  have hcond : ¬ (ai.answer = none ∨ ai.answer = some "") := by
    simp [hans, ht]
  have hcond2 : ai.can_answer = true ∧ ai.answer.getD "" ≠ "" := by
    simp [hcan, hans, ht]
  have hg : active_lock (incoming_phase1
      (unlock_if_expired (get_or_create_dialog s m.bot_id m.channel_type
        m.external_chat_id (some m.external_user_id) now).1.1 now).1 now) now = false :=
    active_lock_false_of_unassigned _ now hA
  unfold process_incoming_message
  dsimp only
  rw [if_neg (by simp [hg]), if_neg hcond, if_pos hcond2]
  dsimp only
  simp [append_message, incoming_phase1, hans, List.getLast?_concat]

/-- An Avito sender environment with a configured channel (user_id 42), a
valid access token, and a transport error on the POST. -/
def avitoFailEnv : AvitoEnv :=
  ⟨some (some "42"), some "tok", .error .requestError, .ok none, .ok ⟨200, none⟩⟩

/-- A Telegram sender environment with a configured token and a transport
error on the POST; TelegramSender swallows it. -/
def tgFailEnv : TelegramEnv := ⟨some (some "tg"), .error .requestError⟩

/-- The sample inbound message arriving on the Avito channel. -/
def avitoMsg : NormalizedIncomingMessage :=
  { sampleMsg with channel_type := .avito }

/-- C8 amended: when the pipeline answers (can_answer=true, non-empty text t)
on an unassigned dialog, the orchestrator persists a bot message with text t
as the last message of the store, sets status WAIT_USER, sets
waiting_time_seconds to the whole seconds since last_user_message_at, resets
unread_messages_count, and issues exactly one send through the channel's
registered sender; but it returns both the user and bot messages only when
that sender's dispatch completes without raising — the await at service.py
505-510 has no try/except, every sender_registry sender swallows its
failures, and AvitoSender re-raises transport errors into
process_incoming_message. -/
theorem C8_pipeline_answer_updates_dialog_and_sends (s : Store)
    (m : NormalizedIncomingMessage) (ai : AIAnswer) (t : String) (now now2 : Nat)
    (outcome : SendRecord → SendOutcome)
    (hunassigned : ∀ d,
      latest_open s m.bot_id m.channel_type m.external_chat_id = some d →
      d.assigned_admin_id = none)
    (hcan : ai.can_answer = true) (hans : ai.answer = some t) (ht : t ≠ "")
    (hsend : outcome ⟨m.channel_type, m.bot_id, m.external_chat_id, t⟩ =
      SendOutcome.completed) :
    process_incoming_dispatched s m ai now now2 outcome =
      Except.ok (process_incoming_message s m ai now now2) ∧
    (process_incoming_message s m ai now now2).bot_message.map
      (fun msg => (msg.sender, msg.text)) = some (MessageSender.bot, some t) ∧
    (process_incoming_message s m ai now now2).store.messages.getLast? =
      (process_incoming_message s m ai now now2).bot_message ∧
    (process_incoming_message s m ai now now2).dialog.status =
      DialogStatus.wait_user ∧
    (process_incoming_message s m ai now now2).dialog.last_user_message_at =
      some now ∧
    (process_incoming_message s m ai now now2).dialog.waiting_time_seconds =
      now2 - now ∧
    (process_incoming_message s m ai now now2).dialog.unread_messages_count = 0 ∧
    (process_incoming_message s m ai now now2).sends =
      [⟨m.channel_type, m.bot_id, m.external_chat_id, t⟩] ∧
    (process_incoming_message s m ai now now2).user_message.sender =
      MessageSender.user ∧
    (process_incoming_message s m ai now now2).user_message.text = m.text := by
  have h := process_incoming_answer_full s m ai t now now2 hunassigned hcan hans ht
  refine ⟨?_, h⟩
  have hs : (process_incoming_message s m ai now now2).sends =
      [⟨m.channel_type, m.bot_id, m.external_chat_id, t⟩] :=
    h.2.2.2.2.2.2.1
  unfold process_incoming_dispatched
  dsimp only
  rw [hs]
  simp [hsend]

/-- C8 witness: a fresh store, the sample webchat message, an answering
pipeline at clock instants 10 and 12, and the registry dispatch with a
transport-failing Telegram environment, which completes anyway because the
registry senders swallow failures. -/
theorem C8_pipeline_answer_updates_dialog_and_sends_witness :
    process_incoming_dispatched ⟨[], [], 1, 1⟩ sampleMsg ansYes 10 12
      (dispatch_outcome avitoFailEnv tgFailEnv) =
      Except.ok (process_incoming_message ⟨[], [], 1, 1⟩ sampleMsg ansYes 10 12) ∧
    (process_incoming_message ⟨[], [], 1, 1⟩ sampleMsg ansYes 10 12).bot_message.map
      (fun msg => (msg.sender, msg.text)) = some (MessageSender.bot, some "Answer") ∧
    (process_incoming_message ⟨[], [], 1, 1⟩ sampleMsg ansYes 10 12).store.messages.getLast? =
      (process_incoming_message ⟨[], [], 1, 1⟩ sampleMsg ansYes 10 12).bot_message ∧
    (process_incoming_message ⟨[], [], 1, 1⟩ sampleMsg ansYes 10 12).dialog.status =
      DialogStatus.wait_user ∧
    (process_incoming_message ⟨[], [], 1, 1⟩ sampleMsg ansYes 10 12).dialog.last_user_message_at =
      some 10 ∧
    (process_incoming_message ⟨[], [], 1, 1⟩ sampleMsg ansYes 10 12).dialog.waiting_time_seconds =
      12 - 10 ∧
    (process_incoming_message ⟨[], [], 1, 1⟩ sampleMsg ansYes 10 12).dialog.unread_messages_count = 0 ∧
    (process_incoming_message ⟨[], [], 1, 1⟩ sampleMsg ansYes 10 12).sends =
      [⟨ChannelType.webchat, 1, "chat-1", "Answer"⟩] ∧
    (process_incoming_message ⟨[], [], 1, 1⟩ sampleMsg ansYes 10 12).user_message.sender =
      MessageSender.user ∧
    (process_incoming_message ⟨[], [], 1, 1⟩ sampleMsg ansYes 10 12).user_message.text =
      some "Hi" :=
  C8_pipeline_answer_updates_dialog_and_sends ⟨[], [], 1, 1⟩ sampleMsg ansYes
    "Answer" 10 12 (dispatch_outcome avitoFailEnv tgFailEnv)
    (fun d hd => Option.noConfusion hd) rfl rfl (by decide) rfl

/-- C8 counterexample to the claim as stated: the same answering pipeline on
the same message arriving over the Avito channel, with a transport error on
the POST — AvitoSender.send_text re-raises (avito_sender.py lines 155, 173),
the await at service.py 505-510 has no try/except, so
process_incoming_message raises out of the dispatch and never returns the
user and bot messages, even though exactly one send was attempted. -/
theorem C8_avito_send_failure_never_returns :
    process_incoming_dispatched ⟨[], [], 1, 1⟩ avitoMsg ansYes 10 12
      (dispatch_outcome avitoFailEnv tgFailEnv) =
      Except.error "send raised" ∧
    (process_incoming_message ⟨[], [], 1, 1⟩ avitoMsg ansYes 10 12).sends ≠ [] := by
  refine ⟨rfl, by decide⟩

/-! ## Confidence gating and the decline path -/

theorem find_relevant_chunks_empty (env : RagEnv)
    (hscore : ∀ c ∈ env.chunks, env.score c < 3/10)
    (hraise : env.embed_raises = false) :
    find_relevant_chunks env = .ok [] := by
  unfold find_relevant_chunks
  rw [hraise]
  dsimp only
  cases hok : env.embed_ok with
  | false => rfl
  | true =>
    rw [if_neg (by simp)]
    have hnil : env.chunks.filterMap (fun c =>
        if env.score c ≥ 3/10 then some (c, env.score c) else none) = [] := by
      rw [List.filterMap_eq_nil_iff]
      intro c hc
      rw [if_neg (not_le.mpr (hscore c hc))]
    rw [hnil]
    simp

/-- The system hand-off branch of process_incoming_message (service.py lines
467-480), shared by the decline and hard-failure outcomes of the pipeline:
an unassigned dialog is parked at WAIT_OPERATOR with a persisted
system-marked bot message and no outbound send. -/
theorem process_incoming_decline (s : Store) (m : NormalizedIncomingMessage)
    (ai : AIAnswer) (now now2 : Nat)
    (hunassigned : ∀ d,
      latest_open s m.bot_id m.channel_type m.external_chat_id = some d →
      d.assigned_admin_id = none)
    (hans : ai.answer = none ∨ ai.answer = some "") :
    (process_incoming_message s m ai now now2).dialog.status =
      DialogStatus.wait_operator ∧
    (process_incoming_message s m ai now now2).bot_message.map
      (fun msg => (msg.sender, msg.text)) =
      some (MessageSender.bot, some handoff_text) ∧
    (process_incoming_message s m ai now now2).bot_message.map
      (fun msg => msg.payload) =
      some (some (Json.obj [("system", Json.bool true)])) ∧
    (process_incoming_message s m ai now now2).store.messages.getLast? =
      (process_incoming_message s m ai now now2).bot_message ∧
    (process_incoming_message s m ai now now2).sends = [] ∧
    (process_incoming_message s m ai now now2).user_message.sender =
      MessageSender.user := by
  have hA := unlock_if_expired_assigned
    (get_or_create_dialog s m.bot_id m.channel_type m.external_chat_id
      (some m.external_user_id) now).1.1 now
    (gocd_assigned s m.bot_id m.channel_type m.external_chat_id
      (some m.external_user_id) now hunassigned)
  have hg : active_lock (incoming_phase1
      (unlock_if_expired (get_or_create_dialog s m.bot_id m.channel_type
        m.external_chat_id (some m.external_user_id) now).1.1 now).1 now) now = false :=
    active_lock_false_of_unassigned _ now hA
  unfold process_incoming_message
  dsimp only
  rw [if_neg (by simp [hg]), if_pos hans]
  dsimp only
  simp [append_message, List.getLast?_concat]

/-- C2 amended: for a knowledge-enabled bot whose retrieval yields no chunk
at or above the similarity floor 0.3, generate_answer declines with
can_answer=false and answer=None; the orchestrator, which cannot
distinguish a decline from a hard failure (both arrive as answer=None),
then parks the unassigned dialog at WAIT_OPERATOR but also persists a
system-marked bot hand-off message and returns it with the user message;
no outbound send is made. -/
theorem C2_zero_chunks_decline (env : AIEnv)
    (history : List (String × String)) (q : String)
    (hknow : has_knowledge env.rag = true)
    (hscore : ∀ c ∈ env.rag.chunks, env.rag.score c < 3/10)
    (hraise : env.rag.embed_raises = false) :
    generate_answer env history q false = ⟨false, none, 0, []⟩ ∧
    (∀ (s : Store) (m : NormalizedIncomingMessage) (now now2 : Nat),
      (∀ d, latest_open s m.bot_id m.channel_type m.external_chat_id = some d →
        d.assigned_admin_id = none) →
      (process_incoming_message s m (generate_answer env history q false)
        now now2).dialog.status = DialogStatus.wait_operator ∧
      (process_incoming_message s m (generate_answer env history q false)
        now now2).bot_message.map (fun msg => (msg.sender, msg.text)) =
        some (MessageSender.bot, some handoff_text) ∧
      (process_incoming_message s m (generate_answer env history q false)
        now now2).bot_message.map (fun msg => msg.payload) =
        some (some (Json.obj [("system", Json.bool true)])) ∧
      (process_incoming_message s m (generate_answer env history q false)
        now now2).sends = []) := by
  have hga : generate_answer env history q false = ⟨false, none, 0, []⟩ := by
    unfold generate_answer
    rw [hknow]
    rw [find_relevant_chunks_empty env.rag hscore hraise]
    rfl
  refine ⟨hga, ?_⟩
  intro s m now now2 hunassigned
  have h := process_incoming_decline s m (generate_answer env history q false)
    now now2 hunassigned (by rw [hga]; exact Or.inl rfl)
  exact ⟨h.1, h.2.1, h.2.2.1, h.2.2.2.2.1⟩

/-- A knowledge-enabled environment whose single chunk scores 0.1 for the
question, below the 0.3 floor. -/
def declineEnv : AIEnv :=
  ⟨none, ⟨false, true, [⟨1, "doc"⟩], fun _ => 1/10⟩, fun _ _ _ _ => .ok "ignored"⟩

/-- C2 witness: the decline pipeline and the orchestrator outcome at the
sample message on a fresh store. -/
theorem C2_zero_chunks_decline_witness :
    generate_answer declineEnv [] "Q" false = ⟨false, none, 0, []⟩ ∧
    (process_incoming_message ⟨[], [], 1, 1⟩ sampleMsg
      (generate_answer declineEnv [] "Q" false) 10 12).dialog.status =
      DialogStatus.wait_operator ∧
    (process_incoming_message ⟨[], [], 1, 1⟩ sampleMsg
      (generate_answer declineEnv [] "Q" false) 10 12).bot_message.map
      (fun msg => (msg.sender, msg.text)) =
      some (MessageSender.bot, some handoff_text) ∧
    (process_incoming_message ⟨[], [], 1, 1⟩ sampleMsg
      (generate_answer declineEnv [] "Q" false) 10 12).sends = [] := by
  have h := C2_zero_chunks_decline declineEnv [] "Q" rfl
    (by intro c hc; simp [declineEnv] at hc; subst hc; norm_num [declineEnv]) rfl
  have h2 := h.2 ⟨[], [], 1, 1⟩ sampleMsg 10 12 (fun d hd => Option.noConfusion hd)
  exact ⟨h.1, h2.1, h2.2.1, h2.2.2.2⟩

/-- The answering branch persists a bot message carrying the answer text
(service.py lines 482-510), stated for any pipeline result. -/
theorem process_incoming_answer_bot_text (s : Store)
    (m : NormalizedIncomingMessage) (ai : AIAnswer) (t : String) (now now2 : Nat)
    (hunassigned : ∀ d,
      latest_open s m.bot_id m.channel_type m.external_chat_id = some d →
      d.assigned_admin_id = none)
    (hcan : ai.can_answer = true) (hans : ai.answer = some t) (ht : t ≠ "") :
    (process_incoming_message s m ai now now2).bot_message.map
      (fun msg => msg.text) = some (some t) := by
  have hA := unlock_if_expired_assigned
    (get_or_create_dialog s m.bot_id m.channel_type m.external_chat_id
      (some m.external_user_id) now).1.1 now
    (gocd_assigned s m.bot_id m.channel_type m.external_chat_id
      (some m.external_user_id) now hunassigned)
  have hg : active_lock (incoming_phase1
      (unlock_if_expired (get_or_create_dialog s m.bot_id m.channel_type
        m.external_chat_id (some m.external_user_id) now).1.1 now).1 now) now = false :=
    active_lock_false_of_unassigned _ now hA
  unfold process_incoming_message
  dsimp only
  rw [if_neg (by simp [hg]), if_neg (by simp [hans, ht]),
    if_pos (by simp [hcan, hans, ht])]
  dsimp only
  simp [hans]

/-- C2 counterexample: at a concrete knowledge-enabled bot whose only chunk
scores 0.1 (below the 0.3 floor), process_incoming does NOT return only the
user message — it persists a system-marked bot message, contradicting the
claim that a decline creates no bot Message. -/
theorem C2_decline_persists_bot_message :
    (process_incoming_message ⟨[], [], 1, 1⟩ sampleMsg
      (generate_answer declineEnv [] "Q" false) 10 12).bot_message.isSome = true ∧
    (process_incoming_message ⟨[], [], 1, 1⟩ sampleMsg
      (generate_answer declineEnv [] "Q" false) 10 12).bot_message.map
      (fun msg => msg.payload) =
      some (some (Json.obj [("system", Json.bool true)])) := by
  have hga : generate_answer declineEnv [] "Q" false = ⟨false, none, 0, []⟩ := by
    unfold generate_answer
    rw [show has_knowledge declineEnv.rag = true from rfl]
    rw [find_relevant_chunks_empty declineEnv.rag
      (by intro c hc; simp [declineEnv] at hc; subst hc; norm_num [declineEnv]) rfl]
    rfl
  rw [hga]
  exact ⟨rfl, rfl⟩

/-! ## The can_answer/answer coupling -/

theorem ga_can_iff (env : AIEnv) (history : List (String × String))
    (q : String) (hm : Bool) :
    (generate_answer env history q hm).can_answer = true ↔
      ((generate_answer env history q hm).answer ≠ none ∧
       (generate_answer env history q hm).answer ≠ some "") := by
  unfold generate_answer
  dsimp only
  split
  · split
    next _ _ => simp
    next t _ => by_cases ht : t = "" <;> simp [ht]
  · split
    · split
      next _ _ => simp
      next _ => simp
      next c cs _ =>
        split
        next _ _ => simp
        next t _ =>
          by_cases hcanp : t ≠ "" ∧ pyMaxRat ((c :: cs).map (fun p => p.2)) 0 ≥ 35/100
          · simp [hcanp, hcanp.1]
          · simp [hcanp]
            exact fun h _ _ _ => h
    · split
      next _ _ => simp
      next t _ => by_cases ht : t = "" <;> simp [ht]

/-- C10: every AIAnswer that generate_answer returns satisfies
can_answer=true exactly when the answer text is non-null and non-empty:
retrieval failures, generation failures and declines all come back as
answer=None with can_answer=false, and any accepted answer is a non-empty
string.  Consequently the orchestrator branch for can_answer=false with a
non-null answer (service.py lines 511-517) is unreachable: whenever the
returned answer is a non-empty string, process_incoming takes the answering
branch and persists a bot message. -/
theorem C10_can_answer_iff_answer_nonempty (env : AIEnv)
    (history : List (String × String)) (q : String) (hm : Bool) :
    ((generate_answer env history q hm).can_answer = true ↔
      ((generate_answer env history q hm).answer ≠ none ∧
       (generate_answer env history q hm).answer ≠ some "")) ∧
    (∀ (s : Store) (m : NormalizedIncomingMessage) (t : String) (now now2 : Nat),
      (∀ d, latest_open s m.bot_id m.channel_type m.external_chat_id = some d →
        d.assigned_admin_id = none) →
      (generate_answer env history q hm).answer = some t → t ≠ "" →
      (process_incoming_message s m (generate_answer env history q hm)
        now now2).bot_message.map (fun msg => msg.text) = some (some t)) := by
  refine ⟨ga_can_iff env history q hm, ?_⟩
  intro s m t now now2 hunassigned hans ht
  have hcan : (generate_answer env history q hm).can_answer = true :=
    (ga_can_iff env history q hm).mpr (by simp [hans, ht])
  exact process_incoming_answer_bot_text s m (generate_answer env history q hm)
    t now now2 hunassigned hcan hans ht

/-- An unconfigured bot environment (no instructions, no knowledge) whose
LLM oracle produces the text Hello. -/
def openEnv : AIEnv :=
  ⟨none, ⟨false, true, [], fun _ => 0⟩, fun _ _ _ _ => .ok "Hello"⟩

/-- C10 witness: the coupling at an unconfigured bot that answers, and the
orchestrator persisting that answer on a fresh store. -/
theorem C10_can_answer_iff_answer_nonempty_witness :
    ((generate_answer openEnv [] "Hi" false).can_answer = true ↔
      ((generate_answer openEnv [] "Hi" false).answer ≠ none ∧
       (generate_answer openEnv [] "Hi" false).answer ≠ some "")) ∧
    (process_incoming_message ⟨[], [], 1, 1⟩ sampleMsg
      (generate_answer openEnv [] "Hi" false) 10 12).bot_message.map
      (fun msg => msg.text) = some (some "Hello") := by
  have h := C10_can_answer_iff_answer_nonempty openEnv [] "Hi" false
  exact ⟨h.1, h.2 ⟨[], [], 1, 1⟩ sampleMsg "Hello" 10 12
    (fun d hd => Option.noConfusion hd) rfl (by decide)⟩

/-! ## switch_to_auto on an unanswered user message -/

/-- C6 amended: on a one-dialog store, switch_to_auto by the assignee (or on
an unassigned dialog) of a non-closed dialog whose latest message is a user
message re-runs the pipeline; when the pipeline answers with text t it
persists a bot Message with that text, resets unread_messages_count to 0 and
recomputes waiting_time_seconds since last_user_message_at (via add_message),
but then overrides the status back to AUTO — not WAIT_USER — and broadcasts
message_created and dialog_updated over the websocket manager without any
dispatch through the channel Sender Registry (sends is empty). -/
theorem C6_switch_to_auto_answers (d : Dialog) (msgs : List DialogMessage)
    (lm : DialogMessage) (a : Nat) (ai : AIAnswer) (t : String)
    (nd nm now now2 : Nat)
    (hclosed : d.closed = false)
    (hassigned : d.assigned_admin_id = none ∨ d.assigned_admin_id = some a)
    (hlast : (msgs.filter (fun msg => decide (msg.dialog_id = d.id))).getLast? =
      some lm)
    (hu : lm.sender = MessageSender.user)
    (hcan : ai.can_answer = true) (hans : ai.answer = some t) (ht : t ≠ "") :
    ((switch_to_auto ⟨[d], msgs, nd, nm⟩ d a ai now now2).toOption.map
      (fun r => r.dialog.status)) = some DialogStatus.auto ∧
    ((switch_to_auto ⟨[d], msgs, nd, nm⟩ d a ai now now2).toOption.map
      (fun r => r.sends)) = some [] ∧
    ((switch_to_auto ⟨[d], msgs, nd, nm⟩ d a ai now now2).toOption.map
      (fun r => r.broadcast_events)) = some ["message_created", "dialog_updated"] ∧
    ((switch_to_auto ⟨[d], msgs, nd, nm⟩ d a ai now now2).toOption.map
      (fun r => r.store.messages.getLast?.map (fun msg => (msg.sender, msg.text)))) =
      some (some (MessageSender.bot, some t)) ∧
    ((switch_to_auto ⟨[d], msgs, nd, nm⟩ d a ai now now2).toOption.map
      (fun r => r.dialog.unread_messages_count)) = some 0 ∧
    ((switch_to_auto ⟨[d], msgs, nd, nm⟩ d a ai now now2).toOption.map
      (fun r => r.dialog.waiting_time_seconds)) =
      some (match d.last_user_message_at with
        | some lu => now2 - lu
        | none => 0) := by
  have hcommit : commit_dialog ⟨[d], msgs, nd, nm⟩ (switch_base d now) =
      ⟨[switch_base d now], msgs, nd, nm⟩ := by
    simp [commit_dialog, switch_base]
  have hlast2 : ((commit_dialog ⟨[d], msgs, nd, nm⟩ (switch_base d now)).messages.filter
      (fun msg => decide (msg.dialog_id = (switch_base d now).id))).getLast? =
      some lm := hlast
  have hlo : latest_open ⟨[switch_base d now], msgs, nd, nm⟩
      (switch_base d now).bot_id (switch_base d now).channel_type
      (switch_base d now).external_chat_id = some (switch_base d now) := by
    simp [latest_open, sameOpenKey, pickLatest, List.filter, switch_base, hclosed]
  unfold switch_to_auto
  rw [if_neg (by simp [hclosed]), if_neg (not_not_intro hassigned)]
  dsimp only
  rw [hlast2]
  dsimp only
  rw [if_pos hu, if_neg (by simp [hans, ht]), if_pos (by simp [hcan, hans, ht])]
  unfold add_message
  rw [hcommit, gocd_found ⟨[switch_base d now], msgs, nd, nm⟩
    (switch_base d now).bot_id (switch_base d now).channel_type
    (switch_base d now).external_chat_id (some (switch_base d now).external_user_id)
    now2 (switch_base d now) hlo]
  dsimp only
  rw [if_neg (by decide : ¬ (MessageSender.bot = MessageSender.user))]
  simp [Except.toOption, append_message, commit_dialog, switch_base, hans,
    List.getLast?_concat]

/-- A store message fixture: one user message in dialog 1. -/
def userMsg0 : DialogMessage :=
  ⟨1, 1, MessageSender.user, some "Hi", none, 2, 2⟩

/-- A dialog awaiting an operator with the last user message at second 4. -/
def askedDialog : Dialog :=
  { sampleDialog with status := .wait_operator, last_user_message_at := some 4 }

/-- C6 witness: the amended behavior at a concrete one-dialog store. -/
theorem C6_switch_to_auto_answers_witness :
    ((switch_to_auto ⟨[askedDialog], [userMsg0], 2, 2⟩ askedDialog 1 ansYes
      10 12).toOption.map (fun r => r.dialog.status)) = some DialogStatus.auto ∧
    ((switch_to_auto ⟨[askedDialog], [userMsg0], 2, 2⟩ askedDialog 1 ansYes
      10 12).toOption.map (fun r => r.sends)) = some [] ∧
    ((switch_to_auto ⟨[askedDialog], [userMsg0], 2, 2⟩ askedDialog 1 ansYes
      10 12).toOption.map (fun r => r.broadcast_events)) =
      some ["message_created", "dialog_updated"] ∧
    ((switch_to_auto ⟨[askedDialog], [userMsg0], 2, 2⟩ askedDialog 1 ansYes
      10 12).toOption.map
      (fun r => r.store.messages.getLast?.map (fun msg => (msg.sender, msg.text)))) =
      some (some (MessageSender.bot, some "Answer")) ∧
    ((switch_to_auto ⟨[askedDialog], [userMsg0], 2, 2⟩ askedDialog 1 ansYes
      10 12).toOption.map (fun r => r.dialog.unread_messages_count)) = some 0 ∧
    ((switch_to_auto ⟨[askedDialog], [userMsg0], 2, 2⟩ askedDialog 1 ansYes
      10 12).toOption.map (fun r => r.dialog.waiting_time_seconds)) = some (12 - 4) :=
  C6_switch_to_auto_answers askedDialog [userMsg0] userMsg0 1 ansYes "Answer"
    2 2 10 12 rfl (Or.inl rfl) rfl rfl rfl rfl (by decide)

/-! ## Avito normalization: skip flags and totality on well-typed payloads -/

/-- C6 counterexample to the claim as stated: on a concrete store whose latest
message is an unanswered user message and whose pipeline answers,
switch_to_auto leaves the dialog in status AUTO, not WAIT_USER, and dispatches
nothing through any sender (sends is empty: the method never calls
get_sender). -/
theorem C6_no_wait_user_no_dispatch :
    ((switch_to_auto ⟨[askedDialog], [userMsg0], 2, 2⟩ askedDialog 1 ansYes
      10 12).toOption.map (fun r => r.dialog.status)) ≠
      some DialogStatus.wait_user ∧
    ((switch_to_auto ⟨[askedDialog], [userMsg0], 2, 2⟩ askedDialog 1 ansYes
      10 12).toOption.map (fun r => r.sends)) = some [] := by
  refine ⟨by decide, rfl⟩

end ServiceAi
